import Mathlib

/-!
Verification of the persistent state and layout core of the DashWizardAI
repository (Ver0.2/agent/tools): the dashboard component store
(dashboard_storage_tools.py), the widget store (sql_storage_tools.py), the
analytic table catalog (storage_tools.py), and the widget layout placement
engine (dashboard_storage_tools.py).

The Python code is shallowly embedded: the DuckDB tables become Lean lists of
row structures, SQL statements become list operations, raised exceptions
become `Except.error`, and environment-dependent effects (a failing engine
query, `uuid.uuid4()`, `datetime.now()`) become explicit parameters.
Positions and sizes are integers (every constant in the layout code is an
integer and the code only adds and compares them).
-/

/-! ## Component store: the `dashboard_data` table

Schema from `_ensure_dashboard_table_exists` (dashboard_storage_tools.py):
columns run_id, dashboard_id, data, created_at, updated_at, status, version,
with PRIMARY KEY (run_id, dashboard_id, version).  The payload column `data`
holds a JSON blob; it is modelled by a type parameter `α` (an opaque payload:
`String` for the JSON-blob view, `DashboardConfig` where the structured
document matters). -/

structure DashRow (α : Type) where
  run_id : String
  dashboard_id : String
  data : α
  created_at : String
  updated_at : String
  status : String
  version : Nat
  deriving DecidableEq, Repr

/-- The versions of all stored rows whose `dashboard_id` matches, in store
order: the result set of
`SELECT version FROM dashboard_data WHERE dashboard_id = d`. -/
def versionsOf {α : Type} (db : List (DashRow α)) (d : String) : List Nat :=
  (db.filter (fun q => q.dashboard_id == d)).map (fun q => q.version)

/-- Fold used to model SQL `MAX(version)` over a non-empty result set. -/
def maxNat (l : List Nat) : Nat := l.foldl max 0

/-- `_get_next_version` (dashboard_storage_tools.py, lines 33-43): reads
`SELECT MAX(version) FROM dashboard_data WHERE dashboard_id = d` — scoped by
`dashboard_id` alone, not by `run_id` — and returns max+1, or 1 when the
dashboard has no rows (the SQL MAX is NULL).  The bare `except: return 1`
swallows every lookup failure; whether the underlying query raises is
environment-dependent and is passed in as `lookupFails`. -/
def _get_next_version {α : Type} (lookupFails : Bool) (db : List (DashRow α))
    (dashboard_id : String) : Nat :=
  if lookupFails then 1
  else
    match versionsOf db dashboard_id with
    | [] => 1
    | v :: vs => maxNat (v :: vs) + 1

/-- A single `INSERT INTO dashboard_data` row-insert, with the
`(run_id, dashboard_id, version)` primary-key constraint enforced by the
engine: a duplicate key makes the insert raise. -/
def insertDashRow {α : Type} (db : List (DashRow α)) (r : DashRow α) :
    Except String (List (DashRow α)) :=
  if db.any (fun q =>
      q.run_id == r.run_id && q.dashboard_id == r.dashboard_id &&
      q.version == r.version) then
    .error "Constraint Error: duplicate primary key (run_id, dashboard_id, version)"
  else
    .ok (db ++ [r])

/-- `save_dashboard_data` (dashboard_storage_tools.py, lines 13-31): computes
the next version via `_get_next_version` and inserts one new row; any insert
failure is re-raised as `RuntimeError("Failed to save dashboard data: ...")`.
`now` stands for `datetime.now().isoformat()`. -/
def save_dashboard_data {α : Type} (lookupFails : Bool) (db : List (DashRow α))
    (run_id dashboard_id : String) (data : α) (status now : String) :
    Except String (List (DashRow α)) :=
  match insertDashRow db
      { run_id := run_id, dashboard_id := dashboard_id, data := data,
        created_at := now, updated_at := now, status := status,
        version := _get_next_version lookupFails db dashboard_id } with
  | .ok db2 => .ok db2
  | .error e => .error ("Failed to save dashboard data: " ++ e)

/-- One scan step of `ORDER BY version DESC LIMIT 1`: keep the row of larger
version, the earlier row on a tie. -/
def maxRowStep {α : Type} (acc : Option (DashRow α)) (q : DashRow α) :
    Option (DashRow α) :=
  match acc with
  | none => some q
  | some m => if m.version < q.version then some q else some m

/-- The row delivered by `ORDER BY version DESC LIMIT 1`: the first row of
maximal version encountered scanning the result set. -/
def argmaxRow {α : Type} (l : List (DashRow α)) : Option (DashRow α) :=
  l.foldl maxRowStep none

/-- `get_dashboard_data` (dashboard_storage_tools.py, lines 45-55): returns
the payload of the row of maximal version among rows matching BOTH `run_id`
and `dashboard_id`; raises when no row matches. -/
def get_dashboard_data {α : Type} (db : List (DashRow α))
    (run_id dashboard_id : String) : Except String α :=
  match argmaxRow (db.filter (fun q =>
      q.run_id == run_id && q.dashboard_id == dashboard_id)) with
  | some q => .ok q.data
  | none => .error ("Failed to retrieve dashboard data: No dashboard data found for run_id: "
      ++ run_id ++ ", dashboard_id: " ++ dashboard_id)

/-- `cleanup_dashboard_data` (dashboard_storage_tools.py, lines 57-62):
run-scoped delete wrapped in try/except -- on failure it prints a warning and
returns normally, leaving the store unchanged.  `failure` is the
environment-dependent engine failure, as in `cleanup_widget_data` below. -/
def cleanup_dashboard_data {α : Type} (failure : Option String)
    (db : List (DashRow α)) (run_id : String) : List (DashRow α) :=
  match failure with
  | some _ => db
  | none => db.filter (fun q => !(q.run_id == run_id))

/-! ### Store lemmas -/

theorem init_le_foldl_max (l : List Nat) : ∀ a, a ≤ l.foldl max a := by
  induction l with
  | nil => intro a; exact le_rfl
  | cons v vs ih =>
    intro a
    exact le_trans (le_max_left a v) (ih (max a v))

theorem le_foldl_max (l : List Nat) : ∀ a x, x ∈ l → x ≤ l.foldl max a := by
  induction l with
  | nil => intro a x hx; cases hx
  | cons v vs ih =>
    intro a x hx
    rcases List.mem_cons.mp hx with h | h
    · subst h
      exact le_trans (le_max_right a x) (init_le_foldl_max vs (max a x))
    · exact ih (max a v) x h

theorem mem_le_maxNat (l : List Nat) (x : Nat) (hx : x ∈ l) : x ≤ maxNat l :=
  le_foldl_max l 0 x hx

/-- Versions already stored for a dashboard are strictly below the next
version computed by a successful lookup. -/
theorem version_lt_next {α : Type} (db : List (DashRow α)) (d : String)
    (q : DashRow α) (hq : q ∈ db) (hd : q.dashboard_id = d) :
    q.version < _get_next_version false db d := by
  have hmem : q.version ∈ versionsOf db d := by
    refine List.mem_map.mpr ⟨q, ?_, rfl⟩
    exact List.mem_filter.mpr ⟨hq, by simp [hd]⟩
  unfold _get_next_version
  simp only [if_neg (by simp : ¬ (false = true))]
  match hv : versionsOf db d with
  | [] => rw [hv] at hmem; cases hmem
  | v :: vs =>
      rw [hv] at hmem
      exact Nat.lt_succ_of_le (mem_le_maxNat (v :: vs) q.version hmem)

theorem foldl_maxRowStep_mem {α : Type} (l : List (DashRow α)) :
    ∀ acc m, l.foldl maxRowStep acc = some m → acc = some m ∨ m ∈ l := by
  induction l with
  | nil => intro acc m h; exact Or.inl h
  | cons q rest ih =>
    intro acc m h
    rcases ih (maxRowStep acc q) m h with hacc | hmem
    · cases acc with
      | none =>
          cases hacc
          exact Or.inr (List.mem_cons_self _ _)
      | some m0 =>
          change (if m0.version < q.version then some q else some m0) = some m at hacc
          by_cases hv : m0.version < q.version
          · rw [if_pos hv] at hacc
            cases hacc
            exact Or.inr (List.mem_cons_self _ _)
          · rw [if_neg hv] at hacc
            exact Or.inl hacc
    · exact Or.inr (List.mem_cons_of_mem q hmem)

theorem argmaxRow_append_max {α : Type} (l : List (DashRow α)) (r : DashRow α)
    (h : ∀ q ∈ l, q.version < r.version) :
    argmaxRow (l ++ [r]) = some r := by
  unfold argmaxRow
  rw [List.foldl_append]
  cases hfold : l.foldl maxRowStep none with
  | none => rfl
  | some m =>
      have hm : m ∈ l := by
        rcases foldl_maxRowStep_mem l none m hfold with h1 | h1
        · exact absurd h1 (by simp)
        · exact h1
      show (if m.version < r.version then some r else some m) = some r
      rw [if_pos (h m hm)]

/-- The row literal assembled by the INSERT in `save_dashboard_data`. -/
def mkDashRow {α : Type} (r d : String) (p : α) (s t : String) (v : Nat) :
    DashRow α :=
  { run_id := r, dashboard_id := d, data := p, created_at := t,
    updated_at := t, status := s, version := v }

/-- With a successful version lookup, the insert never violates the primary
key, so `save_dashboard_data` always succeeds and appends exactly one row. -/
theorem save_dashboard_data_ok {α : Type} (db : List (DashRow α))
    (r d : String) (p : α) (s t : String) :
    save_dashboard_data false db r d p s t =
      .ok (db ++ [mkDashRow r d p s t (_get_next_version false db d)]) := by
  have hany : db.any (fun q =>
      q.run_id == r && q.dashboard_id == d &&
      q.version == _get_next_version false db d) = false := by
    rw [List.any_eq_false]
    intro q hq
    simp only [Bool.and_eq_true, beq_iff_eq, not_and]
    intro h1 h2
    exact absurd h2 (Nat.ne_of_lt (version_lt_next db d q hq h1.2))
  unfold save_dashboard_data insertDashRow mkDashRow
  simp only [hany, Bool.false_eq_true, if_false]

/-! ### Claim theorems for the component store -/

/-- C1: successive `save_dashboard_data` calls for the same
`(run_id, dashboard_id)` assign strictly increasing version numbers, and
`get_dashboard_data` then returns the payload of the row holding the maximum
version for that key (here the second save's payload, whose version bounds
every version stored for the key). -/
theorem save_versions_strictly_increase_and_get_returns_max {α : Type}
    (db db1 db2 : List (DashRow α)) (r d : String) (p1 p2 : α)
    (s1 s2 t1 t2 : String)
    (h1 : save_dashboard_data false db r d p1 s1 t1 = .ok db1)
    (h2 : save_dashboard_data false db1 r d p2 s2 t2 = .ok db2) :
    _get_next_version false db d < _get_next_version false db1 d ∧
    get_dashboard_data db2 r d = .ok p2 ∧
    ∀ q ∈ db2, q.run_id = r → q.dashboard_id = d →
      q.version ≤ _get_next_version false db1 d := by
  rw [save_dashboard_data_ok] at h1 h2
  set v1 := _get_next_version false db d with hv1
  set v2 := _get_next_version false db1 d with hv2
  have hdb1 : db1 = db ++ [mkDashRow r d p1 s1 t1 v1] :=
    (Except.ok.injEq _ _).mp h1.symm
  have hdb2 : db2 = db1 ++ [mkDashRow r d p2 s2 t2 v2] :=
    (Except.ok.injEq _ _).mp h2.symm
  have hlt : v1 < v2 := by
    have hrow1 : mkDashRow r d p1 s1 t1 v1 ∈ db1 := by
      rw [hdb1]; exact List.mem_append_right _ (List.mem_cons_self _ _)
    exact version_lt_next db1 d _ hrow1 rfl
  refine ⟨hlt, ?_, ?_⟩
  · -- retrieval: the second row is the strict maximum among key-matching rows
    rw [hdb2, hdb1]
    unfold get_dashboard_data
    rw [List.filter_append, List.filter_append]
    have hfr1 : List.filter (fun q => q.run_id == r && q.dashboard_id == d)
        [mkDashRow r d p1 s1 t1 v1] = [mkDashRow r d p1 s1 t1 v1] := by
      simp [mkDashRow]
    have hfr2 : List.filter (fun q => q.run_id == r && q.dashboard_id == d)
        [mkDashRow r d p2 s2 t2 v2] = [mkDashRow r d p2 s2 t2 v2] := by
      simp [mkDashRow]
    rw [hfr1, hfr2]
    have hmax : ∀ q ∈ List.filter
        (fun q => q.run_id == r && q.dashboard_id == d) db ++
        [mkDashRow r d p1 s1 t1 v1],
        q.version < (mkDashRow r d p2 s2 t2 v2).version := by
      intro q hq
      rcases List.mem_append.mp hq with hq1 | hq1
      · have hq2 := List.mem_filter.mp hq1
        have hd : q.dashboard_id = d := by
          have hb := hq2.2
          simp only [Bool.and_eq_true, beq_iff_eq] at hb
          exact hb.2
        exact lt_trans (version_lt_next db d q hq2.1 hd) hlt
      · have hq2 : q = mkDashRow r d p1 s1 t1 v1 := by simpa using hq1
        rw [hq2]
        exact hlt
    rw [argmaxRow_append_max _ _ hmax]
    rfl
  · intro q hq hr hd
    rw [hdb2] at hq
    rcases List.mem_append.mp hq with hq1 | hq1
    · rw [hdb1] at hq1
      rcases List.mem_append.mp hq1 with hq2 | hq2
      · exact le_of_lt (lt_trans (version_lt_next db d q hq2 hd) hlt)
      · have hq3 : q = mkDashRow r d p1 s1 t1 v1 := by simpa using hq2
        rw [hq3]
        exact le_of_lt hlt
    · have hq3 : q = mkDashRow r d p2 s2 t2 v2 := by simpa using hq1
      rw [hq3]
      exact le_rfl

/-- Witness for C1 at a concrete store: two saves from the empty store. -/
theorem save_versions_strictly_increase_witness :
    _get_next_version false ([] : List (DashRow String)) "d1" <
      _get_next_version false [mkDashRow "r1" "d1" "a" "success" "t1" 1] "d1" ∧
    get_dashboard_data
      [mkDashRow "r1" "d1" "a" "success" "t1" 1,
       mkDashRow "r1" "d1" "b" "success" "t2" 2] "r1" "d1" = .ok "b" ∧
    ∀ q ∈ [mkDashRow "r1" "d1" "a" "success" "t1" 1,
           mkDashRow "r1" "d1" "b" "success" "t2" 2], q.run_id = "r1" →
      q.dashboard_id = "d1" →
      q.version ≤ _get_next_version false
        [mkDashRow "r1" "d1" "a" "success" "t1" 1] "d1" :=
  save_versions_strictly_increase_and_get_returns_max
    [] _ _ "r1" "d1" "a" "b" "success" "success" "t1" "t2" (by rfl) (by rfl)

/-- Rewriting every row's `run_id` arbitrarily leaves the version lookup of
`_get_next_version` unchanged: its scan reads only `dashboard_id` and
`version`. -/
theorem versionsOf_map_run {α : Type} (db : List (DashRow α))
    (f : DashRow α → String) (d : String) :
    versionsOf (db.map (fun q => { q with run_id := f q })) d =
      versionsOf db d := by
  induction db with
  | nil => rfl
  | cons q rest ih =>
    unfold versionsOf at ih ⊢
    simp only [List.map_cons, List.filter_cons]
    cases hq : q.dashboard_id == d with
    | true => simp [hq, ih]
    | false => simp [hq, ih]

/-- C3: the next-version computation is scoped by `dashboard_id` alone — it is
invariant under arbitrary rewriting of `run_id`s and depends only on the rows
with the given `dashboard_id` — while `get_dashboard_data` retrieval depends
only on the rows matching both `run_id` and `dashboard_id`. -/
theorem next_version_scoped_by_dashboard_get_scoped_by_both {α : Type} :
    (∀ (db : List (DashRow α)) (f : DashRow α → String) (d : String),
      _get_next_version false (db.map (fun q => { q with run_id := f q })) d =
        _get_next_version false db d) ∧
    (∀ (db : List (DashRow α)) (d : String),
      _get_next_version false db d =
        _get_next_version false (db.filter (fun q => q.dashboard_id == d)) d) ∧
    (∀ (db : List (DashRow α)) (r d : String),
      get_dashboard_data db r d =
        get_dashboard_data
          (db.filter (fun q => q.run_id == r && q.dashboard_id == d)) r d) := by
  refine ⟨?_, ?_, ?_⟩
  · intro db f d
    unfold _get_next_version
    rw [versionsOf_map_run]
  · intro db d
    have hv : versionsOf (db.filter (fun q => q.dashboard_id == d)) d =
        versionsOf db d := by
      unfold versionsOf
      rw [List.filter_filter]
      simp only [Bool.and_self]
    unfold _get_next_version
    rw [hv]
  · intro db r d
    unfold get_dashboard_data
    rw [List.filter_filter]
    simp only [Bool.and_self]

/-- C10: when the MAX(version) lookup raises, `_get_next_version` swallows the
error and returns 1, so a save against a key that already stored version 1
attempts to re-insert version 1 and the
`(run_id, dashboard_id, version)` primary key rejects it. -/
theorem failed_lookup_resets_version_and_pk_rejects {α : Type}
    (db : List (DashRow α)) (r d : String) (p : α) (s t : String)
    (h : ∃ q ∈ db, q.run_id = r ∧ q.dashboard_id = d ∧ q.version = 1) :
    _get_next_version true db d = 1 ∧
    ∃ e, save_dashboard_data true db r d p s t = .error e := by
  refine ⟨rfl, ?_⟩
  obtain ⟨q, hq, hrun, hdash, hver⟩ := h
  have hany : db.any (fun w =>
      w.run_id == r && w.dashboard_id == d &&
      w.version == _get_next_version true db d) = true := by
    refine List.any_eq_true.mpr ⟨q, hq, ?_⟩
    simp [hrun, hdash, hver, _get_next_version]
  have hsave : save_dashboard_data true db r d p s t =
      .error ("Failed to save dashboard data: " ++
        "Constraint Error: duplicate primary key (run_id, dashboard_id, version)") := by
    unfold save_dashboard_data insertDashRow
    simp only [hany, if_true]
  exact ⟨_, hsave⟩

/-- Witness for C10 at a concrete store already holding version 1. -/
theorem failed_lookup_resets_version_witness :
    (∃ q ∈ [mkDashRow "r1" "d1" "x" "success" "t0" 1], q.run_id = "r1" ∧
        q.dashboard_id = "d1" ∧ q.version = 1) ∧
    _get_next_version true [mkDashRow "r1" "d1" "x" "success" "t0" 1] "d1" = 1 ∧
    ∃ e, save_dashboard_data true [mkDashRow "r1" "d1" "x" "success" "t0" 1]
        "r1" "d1" "y" "success" "t1" = .error e :=
  have h : ∃ q ∈ [mkDashRow "r1" "d1" "x" "success" "t0" 1], q.run_id = "r1" ∧
      q.dashboard_id = "d1" ∧ q.version = 1 :=
    ⟨mkDashRow "r1" "d1" "x" "success" "t0" 1, List.mem_singleton.mpr rfl,
      rfl, rfl, rfl⟩
  ⟨h, (failed_lookup_resets_version_and_pk_rejects _ "r1" "d1" "y" "success"
        "t1" h).1,
      (failed_lookup_resets_version_and_pk_rejects _ "r1" "d1" "y" "success"
        "t1" h).2⟩

/-! ## Layout placement engine (dashboard_storage_tools.py, lines 233-339)

Positions and sizes are modelled as integers: every constant in the Python
code is an integer and the code only adds, subtracts and compares.  A widget
dictionary is modelled by the fields the layout and dashboard code reads:
`id`, `type`, `position`, `size` (`title`/`config` are never read by the
modelled operations).  `position`/`size` are `Option`s: `none` models a
missing key or empty dictionary (falsy in `widget.get("position", {})`),
`some` a populated dictionary (truthy).  A widget dictionary with no "type"
key behaves in every modelled operation exactly like one with type "text"
(`w.get("type", "text")`), so the type field is a plain string. -/

structure PosXY where
  x : Int
  y : Int
  deriving DecidableEq, Repr

structure WSize where
  width : Int
  height : Int
  deriving DecidableEq, Repr

structure Rect where
  x : Int
  y : Int
  width : Int
  height : Int
  deriving DecidableEq, Repr

structure Widget where
  id : String
  type : String
  position : Option PosXY
  size : Option WSize
  deriving DecidableEq, Repr

/-- One entry of the `position_rules` table in `calculate_widget_position`. -/
structure PlacementRule where
  preferred_y : Int
  preferred_x_positions : List Int
  width : Int
  height : Int
  deriving DecidableEq, Repr

/-- The `position_rules` dictionary (lines 237-242); `none` for a widget type
outside the table. -/
def position_rules (t : String) : Option PlacementRule :=
  if t = "metric" then some { preferred_y := 0, preferred_x_positions := [0, 300, 600], width := 280, height := 160 }
  else if t = "chart" then some { preferred_y := 180, preferred_x_positions := [0, 300], width := 500, height := 300 }
  else if t = "table" then some { preferred_y := 500, preferred_x_positions := [0], width := 580, height := 300 }
  else if t = "text" then some { preferred_y := 400, preferred_x_positions := [0, 300], width := 400, height := 200 }
  else none

/-- The `occupied_positions` extraction (lines 253-263): a widget contributes
a rectangle only when both its position and its size are present (truthy). -/
def occupiedPositions (ws : List Widget) : List Rect :=
  ws.filterMap (fun w =>
    match w.position, w.size with
    | some p, some s => some { x := p.x, y := p.y, width := s.width, height := s.height }
    | _, _ => none)

/-- `_position_overlaps` (lines 285-297): margin-augmented AABB test of the
candidate rectangle against every occupied rectangle; margin 20 is added once
per axis side in each strict comparison. -/
def _position_overlaps (x y width height : Int) (occupied : List Rect) : Bool :=
  occupied.any (fun o =>
    decide (x < o.x + o.width + 20 ∧ x + width + 20 > o.x ∧
            y < o.y + o.height + 20 ∧ y + height + 20 > o.y))

/-- `_find_next_available_row` (lines 299-310): maximum of `y + height` over
occupied rectangles within plus-or-minus 50 of the preferred row, plus 30
spacing; no overlap re-check is performed on the result. -/
def _find_next_available_row (preferred_y : Int) (occupied : List Rect) : Int :=
  if occupied.isEmpty then preferred_y
  else (occupied.foldl (fun m o =>
    if decide (preferred_y - 50 ≤ o.y ∧ o.y ≤ preferred_y + 50) then
      max m (o.y + o.height)
    else m) preferred_y) + 30

/-- The scan over `preferred_x_positions` (lines 266-268): the first candidate
x that does not overlap, if any. -/
def candidateChoice (ru : PlacementRule) (occupied : List Rect) : Option Int :=
  ru.preferred_x_positions.find? (fun xp =>
    !(_position_overlaps xp ru.preferred_y ru.width ru.height occupied))

/-- `calculate_widget_position` (lines 233-272): unknown types get the fixed
default (0, 600) with no overlap check; known types take the first
non-overlapping preferred x at the preferred y, falling back to the first
preferred x and `_find_next_available_row` when every candidate overlaps. -/
def calculate_widget_position (dashboard_widgets : List Widget)
    (new_widget_type : String) : PosXY :=
  match position_rules new_widget_type with
  | none => { x := 0, y := 600 }
  | some ru =>
    match candidateChoice ru (occupiedPositions dashboard_widgets) with
    | some xp => { x := xp, y := ru.preferred_y }
    | none =>
      { x := ru.preferred_x_positions.headD 0,
        y := _find_next_available_row ru.preferred_y
              (occupiedPositions dashboard_widgets) }

/-- `get_widget_dimensions` (lines 274-283). -/
def get_widget_dimensions (widget_type : String) : WSize :=
  if widget_type = "metric" then { width := 280, height := 160 }
  else if widget_type = "chart" then { width := 500, height := 300 }
  else if widget_type = "table" then { width := 580, height := 300 }
  else if widget_type = "text" then { width := 400, height := 200 }
  else { width := 400, height := 250 }

/-- The `type_priority` lookup in `optimize_dashboard_layout` (line 318),
default 3 for unknown types. -/
def type_priority (t : String) : Nat :=
  if t = "metric" then 0
  else if t = "chart" then 1
  else if t = "table" then 2
  else if t = "text" then 3
  else 3

/-- Python's stable `widgets.sort(key=priority)`: the priority keys take only
the values 0-3, so the stable sort equals concatenating the key classes in
key order, each in original relative order. -/
def sortWidgetsByPriority (ws : List Widget) : List Widget :=
  ws.filter (fun w => type_priority w.type == 0) ++
  ws.filter (fun w => type_priority w.type == 1) ++
  ws.filter (fun w => type_priority w.type == 2) ++
  ws.filter (fun w => 3 ≤ type_priority w.type)

/-- One iteration of the placement loop in `optimize_dashboard_layout`
(lines 325-336): overwrite the widget's position and size from the
already-placed prefix. -/
def place1 (acc : List Widget) (w : Widget) : Widget :=
  { w with position := some (calculate_widget_position acc w.type),
           size := some (get_widget_dimensions w.type) }

/-- The placement loop: `optimized_widgets` accumulates the processed widgets
and is also the context for each next placement. -/
def placeSteps (acc : List Widget) : List Widget → List Widget
  | [] => acc
  | w :: rest => placeSteps (acc ++ [place1 acc w]) rest

/-- The freshly produced suffix of `placeSteps` (used for reasoning):
`placeSteps acc ws = acc ++ placeNew acc ws`. -/
def placeNew (acc : List Widget) : List Widget → List Widget
  | [] => []
  | w :: rest => place1 acc w :: placeNew (acc ++ [place1 acc w]) rest

/-- The fixed 12-column grid layout descriptor seeded by
`initialize_dashboard` (lines 114-118). -/
structure LayoutSpec where
  columns : Nat
  rowHeight : Nat
  margin : Nat × Nat
  deriving DecidableEq, Repr

/-- The dashboard document: the fields written by `initialize_dashboard`
(lines 109-124) and read by the dashboard operations. -/
structure DashboardConfig where
  id : String
  name : String
  description : String
  widgets : List Widget
  layout : LayoutSpec
  isPublished : Bool
  isTemplate : Bool
  createdAt : String
  updatedAt : String
  version : Nat
  deriving DecidableEq, Repr

/-- `optimize_dashboard_layout` (lines 312-339): an empty (falsy) widget list
returns the config unchanged; otherwise sort by type priority and re-place
every widget incrementally, overwriting all positions and sizes. -/
def optimize_dashboard_layout (c : DashboardConfig) : DashboardConfig :=
  if c.widgets = [] then c
  else { c with widgets := placeSteps [] (sortWidgetsByPriority c.widgets) }

/-! ### Layout lemmas and C6 (idempotence of `optimize_dashboard_layout`) -/

theorem placeSteps_eq : ∀ (ws acc : List Widget),
    placeSteps acc ws = acc ++ placeNew acc ws := by
  intro ws
  induction ws with
  | nil => intro acc; simp [placeSteps, placeNew]
  | cons w rest ih =>
    intro acc
    show placeSteps (acc ++ [place1 acc w]) rest = _
    rw [ih]
    simp [placeNew, List.append_assoc]

theorem place1_type (acc : List Widget) (w : Widget) :
    (place1 acc w).type = w.type := rfl

/-- A widget already carrying exactly the placement the loop would assign is
left unchanged by one placement step. -/
theorem place1_fix (acc : List Widget) (w : Widget)
    (hp : w.position = some (calculate_widget_position acc w.type))
    (hs : w.size = some (get_widget_dimensions w.type)) :
    place1 acc w = w := by
  cases w with
  | mk i t p s =>
    dsimp at hp hs
    dsimp [place1]
    rw [hp, hs]

/-- Re-running the placement loop on its own output reproduces the output. -/
theorem placeNew_replay : ∀ (ws acc : List Widget),
    placeNew acc (placeNew acc ws) = placeNew acc ws := by
  intro ws
  induction ws with
  | nil => intro acc; rfl
  | cons w rest ih =>
    intro acc
    simp only [placeNew]
    rw [place1_fix acc (place1 acc w) rfl rfl]
    rw [ih (acc ++ [place1 acc w])]

theorem placeNew_append : ∀ (l1 l2 acc : List Widget),
    placeNew acc (l1 ++ l2) =
      placeNew acc l1 ++ placeNew (acc ++ placeNew acc l1) l2 := by
  intro l1
  induction l1 with
  | nil => intro l2 acc; simp [placeNew]
  | cons w rest ih =>
    intro l2 acc
    simp only [List.cons_append, placeNew, List.append_eq]
    rw [ih]
    simp [List.append_assoc]

theorem mem_placeNew_type : ∀ (ws acc : List Widget) (w2 : Widget),
    w2 ∈ placeNew acc ws → ∃ w1 ∈ ws, w2.type = w1.type := by
  intro ws
  induction ws with
  | nil => intro acc w2 h; cases h
  | cons w rest ih =>
    intro acc w2 h
    rcases List.mem_cons.mp h with h1 | h1
    · exact ⟨w, List.mem_cons_self _ _, by rw [h1]; rfl⟩
    · obtain ⟨w1, hw1, ht⟩ := ih (acc ++ [place1 acc w]) w2 h1
      exact ⟨w1, List.mem_cons_of_mem _ hw1, ht⟩

theorem placeNew_prio_pred (Q : Nat → Prop) (acc l : List Widget)
    (h : ∀ w ∈ l, Q (type_priority w.type)) :
    ∀ w2 ∈ placeNew acc l, Q (type_priority w2.type) := by
  intro w2 h2
  obtain ⟨w1, hw1, ht⟩ := mem_placeNew_type l acc w2 h2
  rw [ht]
  exact h w1 hw1

theorem type_priority_le (t : String) : type_priority t ≤ 3 := by
  unfold type_priority
  split_ifs <;> omega

theorem placeNew_ne_nil (acc ws : List Widget) (h : ws ≠ []) :
    placeNew acc ws ≠ [] := by
  obtain ⟨w, rest, rfl⟩ := List.exists_cons_of_ne_nil h
  simp [placeNew]

theorem sortWidgetsByPriority_ne_nil (ws : List Widget) (h : ws ≠ []) :
    sortWidgetsByPriority ws ≠ [] := by
  obtain ⟨w, rest, rfl⟩ := List.exists_cons_of_ne_nil h
  intro hcontra
  unfold sortWidgetsByPriority at hcontra
  rw [List.append_eq_nil] at hcontra
  obtain ⟨hrest, h3⟩ := hcontra
  rw [List.append_eq_nil] at hrest
  obtain ⟨hrest2, h2⟩ := hrest
  rw [List.append_eq_nil] at hrest2
  obtain ⟨h0, h1⟩ := hrest2
  have e0 := List.filter_eq_nil_iff.mp h0 w (List.mem_cons_self _ _)
  have e1 := List.filter_eq_nil_iff.mp h1 w (List.mem_cons_self _ _)
  have e2 := List.filter_eq_nil_iff.mp h2 w (List.mem_cons_self _ _)
  have e3 := List.filter_eq_nil_iff.mp h3 w (List.mem_cons_self _ _)
  simp only [beq_iff_eq, decide_eq_true_eq] at e0 e1 e2 e3
  have := type_priority_le w.type
  omega

theorem filter_beq_self (k : Nat) (c : List Widget)
    (h : ∀ w ∈ c, type_priority w.type = k) :
    c.filter (fun w => type_priority w.type == k) = c :=
  List.filter_eq_self.mpr (fun w hw => by simp [h w hw])

theorem filter_beq_nil (k : Nat) (c : List Widget)
    (h : ∀ w ∈ c, type_priority w.type ≠ k) :
    c.filter (fun w => type_priority w.type == k) = [] :=
  List.filter_eq_nil_iff.mpr (fun w hw => by simp [h w hw])

theorem filter_ge3_self (c : List Widget)
    (h : ∀ w ∈ c, 3 ≤ type_priority w.type) :
    c.filter (fun w => 3 ≤ type_priority w.type) = c :=
  List.filter_eq_self.mpr (fun w hw => by simp [h w hw])

theorem filter_ge3_nil (c : List Widget)
    (h : ∀ w ∈ c, ¬ 3 ≤ type_priority w.type) :
    c.filter (fun w => 3 ≤ type_priority w.type) = [] :=
  List.filter_eq_nil_iff.mpr (fun w hw => by simp [h w hw])

/-- A list already laid out as priority buckets is a fixed point of the
stable bucket sort. -/
theorem sort_of_buckets (c0 c1 c2 c3 : List Widget)
    (h0 : ∀ w ∈ c0, type_priority w.type = 0)
    (h1 : ∀ w ∈ c1, type_priority w.type = 1)
    (h2 : ∀ w ∈ c2, type_priority w.type = 2)
    (h3 : ∀ w ∈ c3, 3 ≤ type_priority w.type) :
    sortWidgetsByPriority (c0 ++ c1 ++ c2 ++ c3) = c0 ++ c1 ++ c2 ++ c3 := by
  unfold sortWidgetsByPriority
  rw [List.filter_append, List.filter_append, List.filter_append,
      List.filter_append, List.filter_append, List.filter_append,
      List.filter_append, List.filter_append, List.filter_append,
      List.filter_append, List.filter_append, List.filter_append]
  rw [filter_beq_self 0 c0 h0,
      filter_beq_nil 0 c1 (fun w hw => by rw [h1 w hw]; omega),
      filter_beq_nil 0 c2 (fun w hw => by rw [h2 w hw]; omega),
      filter_beq_nil 0 c3 (fun w hw => by have := h3 w hw; omega),
      filter_beq_nil 1 c0 (fun w hw => by rw [h0 w hw]; omega),
      filter_beq_self 1 c1 h1,
      filter_beq_nil 1 c2 (fun w hw => by rw [h2 w hw]; omega),
      filter_beq_nil 1 c3 (fun w hw => by have := h3 w hw; omega),
      filter_beq_nil 2 c0 (fun w hw => by rw [h0 w hw]; omega),
      filter_beq_nil 2 c1 (fun w hw => by rw [h1 w hw]; omega),
      filter_beq_self 2 c2 h2,
      filter_beq_nil 2 c3 (fun w hw => by have := h3 w hw; omega),
      filter_ge3_nil c0 (fun w hw => by have := h0 w hw; omega),
      filter_ge3_nil c1 (fun w hw => by have := h1 w hw; omega),
      filter_ge3_nil c2 (fun w hw => by have := h2 w hw; omega),
      filter_ge3_self c3 h3]
  simp

/-- C6: `optimize_dashboard_layout` is idempotent — a second application
reproduces exactly the placements (and the whole document) of the first. -/
theorem optimize_dashboard_layout_idempotent (c : DashboardConfig) :
    optimize_dashboard_layout (optimize_dashboard_layout c) =
      optimize_dashboard_layout c := by
  by_cases h : c.widgets = []
  · simp [optimize_dashboard_layout, h]
  · set F0 := c.widgets.filter (fun w => type_priority w.type == 0) with hF0
    set F1 := c.widgets.filter (fun w => type_priority w.type == 1) with hF1
    set F2 := c.widgets.filter (fun w => type_priority w.type == 2) with hF2
    set F3 := c.widgets.filter (fun w => 3 ≤ type_priority w.type) with hF3
    have hSdef : sortWidgetsByPriority c.widgets = F0 ++ F1 ++ F2 ++ F3 := rfl
    set out := placeSteps [] (sortWidgetsByPriority c.widgets) with hout
    have houtP : out = placeNew [] (F0 ++ F1 ++ F2 ++ F3) := by
      rw [hout, placeSteps_eq, hSdef, List.nil_append]
    have hsort_out : sortWidgetsByPriority out = out := by
      rw [houtP, placeNew_append, placeNew_append, placeNew_append]
      refine sort_of_buckets _ _ _ _ ?_ ?_ ?_ ?_
      · exact placeNew_prio_pred (fun n => n = 0) _ _ (fun w hw => by
          rw [hF0] at hw
          simpa using (List.mem_filter.mp hw).2)
      · exact placeNew_prio_pred (fun n => n = 1) _ _ (fun w hw => by
          rw [hF1] at hw
          simpa using (List.mem_filter.mp hw).2)
      · exact placeNew_prio_pred (fun n => n = 2) _ _ (fun w hw => by
          rw [hF2] at hw
          simpa using (List.mem_filter.mp hw).2)
      · exact placeNew_prio_pred (fun n => 3 ≤ n) _ _ (fun w hw => by
          rw [hF3] at hw
          simpa using (List.mem_filter.mp hw).2)
    have hout_ne : out ≠ [] := by
      rw [houtP]
      apply placeNew_ne_nil
      rw [← hSdef]
      exact sortWidgetsByPriority_ne_nil c.widgets h
    have hreplay : placeSteps [] out = out := by
      rw [placeSteps_eq, List.nil_append, houtP]
      exact placeNew_replay _ _
    have hopt1 : optimize_dashboard_layout c = { c with widgets := out } := by
      unfold optimize_dashboard_layout
      rw [if_neg h]
    have hopt2 : optimize_dashboard_layout { c with widgets := out } =
        { c with widgets := out } := by
      unfold optimize_dashboard_layout
      rw [if_neg (show ¬ ({ c with widgets := out } : DashboardConfig).widgets = []
            from hout_ne)]
      have hs2 : sortWidgetsByPriority
          (({ c with widgets := out } : DashboardConfig).widgets) = out := hsort_out
      rw [hs2, hreplay]
    rw [hopt1, hopt2]

/-! ### C2: the incremental placement procedure and margin separation -/

/-- A placement request of a given type, before any placement is assigned:
the state of the claim's incremental procedure. -/
def blankWidget (t : String) : Widget :=
  { id := "", type := t, position := none, size := none }

/-- The claim's procedure: place requests one at a time through
`calculate_widget_position`, each call seeing the placements already
assigned, with the type's fixed dimensions. -/
def placeSeq (ts : List String) : List Widget :=
  placeSteps [] (ts.map blankWidget)

/-- Whether a placement request of type `t` against the current widgets would
take the fallback branch (every preferred candidate overlaps).  Unknown types
never consult the candidate scan. -/
def usedFallback (ws : List Widget) (t : String) : Bool :=
  match position_rules t with
  | none => false
  | some ru => (candidateChoice ru (occupiedPositions ws)).isNone

/-- Whether an entire request sequence is served by the preferred-candidate
scan alone, starting from already-placed widgets `acc`. -/
def seqNoFallback (acc : List Widget) : List String → Bool
  | [] => true
  | t :: rest => !usedFallback acc t &&
      seqNoFallback (acc ++ [place1 acc (blankWidget t)]) rest

/-- Two rectangles separated by at least the 20-unit margin on some axis:
the (symmetric) guarantee the candidate scan actually checks. -/
def pairSep (a b : Rect) : Bool :=
  decide (b.x + b.width + 20 ≤ a.x ∨ a.x + a.width + 20 ≤ b.x ∨
          b.y + b.height + 20 ≤ a.y ∨ a.y + a.height + 20 ≤ b.y)

def pairwiseSeparated : List Rect → Bool
  | [] => true
  | r :: rs => rs.all (fun s => pairSep r s) && pairwiseSeparated rs

/-- The claim's predicate: both rectangles inflated by the 20-unit margin on
all sides have intersecting extents on both axes. -/
def inflatedIntersect (a b : Rect) : Bool :=
  decide (a.x - 20 < b.x + b.width + 20 ∧ b.x - 20 < a.x + a.width + 20 ∧
          a.y - 20 < b.y + b.height + 20 ∧ b.y - 20 < a.y + a.height + 20)

def pairwiseNoInflatedIntersect : List Rect → Bool
  | [] => true
  | r :: rs => rs.all (fun s => !inflatedIntersect r s) &&
      pairwiseNoInflatedIntersect rs

/-- C2 counterexample: for the two-request sequence [text, table] — both
types drawn from the allowed set, length 2 ≤ 6 — the incremental procedure
places the table through the fallback row search, which performs no overlap
re-check: the two resulting rectangles overlap outright (530 < 400 + 200),
so their margin-inflated versions certainly intersect. -/
theorem place_margin_claim_counterexample :
    occupiedPositions (placeSeq ["text", "table"]) =
      [{ x := 0, y := 400, width := 400, height := 200 },
       { x := 0, y := 530, width := 580, height := 300 }] ∧
    pairwiseNoInflatedIntersect
      (occupiedPositions (placeSeq ["text", "table"])) = false := by
  constructor
  · rfl
  · rfl

theorem known_rules (t : String)
    (h : t = "metric" ∨ t = "chart" ∨ t = "table" ∨ t = "text") :
    ∃ ru, position_rules t = some ru ∧
      get_widget_dimensions t = { width := ru.width, height := ru.height } := by
  rcases h with rfl | rfl | rfl | rfl
  · exact ⟨_, rfl, rfl⟩
  · exact ⟨_, rfl, rfl⟩
  · exact ⟨_, rfl, rfl⟩
  · exact ⟨_, rfl, rfl⟩

theorem pairSep_comm (a b : Rect) : pairSep a b = pairSep b a := by
  unfold pairSep
  rw [decide_eq_decide]
  tauto

/-- A candidate accepted by `_position_overlaps` is margin-separated from
every occupied rectangle. -/
theorem sep_of_not_overlap (x y w h : Int) (o : Rect)
    (hno : decide (x < o.x + o.width + 20 ∧ x + w + 20 > o.x ∧
        y < o.y + o.height + 20 ∧ y + h + 20 > o.y) = false) :
    pairSep { x := x, y := y, width := w, height := h } o = true := by
  have hp := of_decide_eq_false hno
  unfold pairSep
  simp only [decide_eq_true_eq]
  omega

theorem pairwiseSeparated_append (l : List Rect) (r : Rect)
    (hl : pairwiseSeparated l = true)
    (hr : ∀ o ∈ l, pairSep o r = true) :
    pairwiseSeparated (l ++ [r]) = true := by
  induction l with
  | nil => rfl
  | cons a l ih =>
    simp only [List.cons_append, List.append_eq, pairwiseSeparated,
      Bool.and_eq_true] at hl ⊢
    obtain ⟨ha, hl2⟩ := hl
    constructor
    · rw [List.all_append]
      simp only [List.all_cons, List.all_nil, Bool.and_true, Bool.and_eq_true]
      exact ⟨ha, hr a (List.mem_cons_self _ _)⟩
    · exact ih hl2 (fun o ho => hr o (List.mem_cons_of_mem _ ho))

theorem place_no_fallback_separated_aux : ∀ (ts : List String) (acc : List Widget),
    (∀ t ∈ ts, t = "metric" ∨ t = "chart" ∨ t = "table" ∨ t = "text") →
    seqNoFallback acc ts = true →
    pairwiseSeparated (occupiedPositions acc) = true →
    pairwiseSeparated
      (occupiedPositions (placeSteps acc (ts.map blankWidget))) = true := by
  intro ts
  induction ts with
  | nil => intro acc _ _ hp; exact hp
  | cons t rest ih =>
    intro acc hty hnf hp
    obtain ⟨ru, hru, hdim⟩ := known_rules t (hty t (List.mem_cons_self _ _))
    simp only [seqNoFallback, Bool.and_eq_true] at hnf
    obtain ⟨hnf1, hnf2⟩ := hnf
    have hfb : usedFallback acc t = false := by
      cases hu : usedFallback acc t
      · rfl
      · rw [hu] at hnf1; cases hnf1
    simp only [usedFallback, hru] at hfb
    cases hcc : candidateChoice ru (occupiedPositions acc) with
    | none => rw [hcc] at hfb; simp at hfb
    | some xp =>
      have hcc2 := hcc
      unfold candidateChoice at hcc2
      have hnov : _position_overlaps xp ru.preferred_y ru.width ru.height
          (occupiedPositions acc) = false := by
        have hpred := List.find?_some hcc2
        simpa using hpred
      have hcalc : calculate_widget_position acc t =
          { x := xp, y := ru.preferred_y } := by
        simp only [calculate_widget_position, hru, hcc]
      have hocc : occupiedPositions (acc ++ [place1 acc (blankWidget t)]) =
          occupiedPositions acc ++
            [{ x := xp, y := ru.preferred_y,
               width := ru.width, height := ru.height }] := by
        unfold occupiedPositions
        rw [List.filterMap_append]
        congr 1
        simp [place1, blankWidget, hcalc, hdim]
      have hsepnew : ∀ o ∈ occupiedPositions acc,
          pairSep { x := xp, y := ru.preferred_y,
                    width := ru.width, height := ru.height } o = true := by
        intro o ho
        apply sep_of_not_overlap
        have h2 := (List.any_eq_false.mp hnov) o ho
        exact Bool.eq_false_iff.mpr h2
      have hpw : pairwiseSeparated (occupiedPositions acc ++
          [{ x := xp, y := ru.preferred_y,
             width := ru.width, height := ru.height }]) = true :=
        pairwiseSeparated_append _ _ hp
          (fun o ho => by rw [pairSep_comm]; exact hsepnew o ho)
      show pairwiseSeparated (occupiedPositions
        (placeSteps (acc ++ [place1 acc (blankWidget t)]) (rest.map blankWidget))) = true
      apply ih
      · intro t2 ht2
        exact hty t2 (List.mem_cons_of_mem _ ht2)
      · exact hnf2
      · rw [hocc]
        exact hpw

/-- C2 (amended): for every sequence of at most 6 placement requests with
types drawn from {metric, chart, table, text}, placed incrementally via
`calculate_widget_position`, IF every request is served by the
preferred-candidate scan (no request takes the fallback row search, which
performs no overlap check), THEN every two resulting rectangles are
separated by at least the 20-unit margin on some axis — the margin counted
once between the pair, which is the guarantee `_position_overlaps` tests,
not the claim's inflation of both rectangles by 20. -/
theorem place_sequences_no_fallback_margin_separated (ts : List String)
    (hlen : ts.length ≤ 6)
    (hty : ∀ t ∈ ts, t = "metric" ∨ t = "chart" ∨ t = "table" ∨ t = "text")
    (hnf : seqNoFallback [] ts = true) :
    pairwiseSeparated (occupiedPositions (placeSeq ts)) = true := by
  unfold placeSeq
  exact place_no_fallback_separated_aux ts [] hty hnf rfl

/-- Witness for the amended C2 at the concrete sequence
[metric, chart, table]. -/
theorem place_sequences_no_fallback_witness :
    (["metric", "chart", "table"] : List String).length ≤ 6 ∧
    (∀ t ∈ (["metric", "chart", "table"] : List String),
      t = "metric" ∨ t = "chart" ∨ t = "table" ∨ t = "text") ∧
    seqNoFallback [] ["metric", "chart", "table"] = true ∧
    pairwiseSeparated
      (occupiedPositions (placeSeq ["metric", "chart", "table"])) = true :=
  ⟨by decide, by decide, by rfl,
    place_sequences_no_fallback_margin_separated _ (by decide) (by decide) (by rfl)⟩

/-! ## Widget store: the `widget_data` table (sql_storage_tools.py)

Rows: run_id, widget_id, data, created_at, status.  The JSON payload stored
by `save_widget_data` is a dumped WidgetResponse: an envelope with response
`type` and `id` plus a `data` sub-document whose `widget` member is the
widget definition (models.py: `Widget` has required `position` and `size`
fields; the sub-document's `query`/`table_names`/`show_sql` members are never
read by the modelled operations and are omitted). -/

structure WidgetDoc where
  widget : Widget
  deriving DecidableEq, Repr

structure WidgetResponsePayload where
  rtype : String
  rid : String
  data : WidgetDoc
  deriving DecidableEq, Repr

structure WidgetDataRow where
  run_id : String
  widget_id : String
  data : WidgetResponsePayload
  created_at : String
  status : String
  deriving DecidableEq, Repr

/-- `get_widget_data` (sql_storage_tools.py, lines 23-30): first row matching
both `run_id` and `widget_id` (`df.iloc[0]`), else raises ValueError. -/
def get_widget_data (db : List WidgetDataRow) (run_id widget_id : String) :
    Except String WidgetResponsePayload :=
  match db.find? (fun w => w.run_id == run_id && w.widget_id == widget_id) with
  | some w => .ok w.data
  | none => .error ("No widget data found for run_id: " ++ run_id ++
      ", widget_id: " ++ widget_id)

/-- `cleanup_widget_data` (sql_storage_tools.py, lines 32-34): a bare
`DELETE FROM widget_data WHERE run_id = ...` through
`DuckDBManager.execute_query`, with NO try/except: an engine failure (the
`failure` parameter) is re-raised by `execute_query` as
`Exception("Failed to execute query: ...")` and propagates to the caller. -/
def cleanup_widget_data (failure : Option String) (db : List WidgetDataRow)
    (run_id : String) : Except String (List WidgetDataRow) :=
  match failure with
  | some e => .error ("Failed to execute query: " ++ e)
  | none => .ok (db.filter (fun w => !(w.run_id == run_id)))

/-- C7 counterexample: a failing delete makes `cleanup_widget_data` raise
(it has no try/except), instead of logging and returning normally as the
claim states. -/
theorem cleanup_widget_data_raises_counterexample :
    cleanup_widget_data (some "disk error") [] "r1" =
      .error "Failed to execute query: disk error" := rfl

/-- C7 (amended): run-scoped widget cleanup propagates any delete failure to
the caller; it is the dashboard-scoped cleanup (`cleanup_dashboard_data`)
that is best-effort — on the same failure it returns normally with the store
unchanged. -/
theorem cleanup_widget_raises_cleanup_dashboard_best_effort
    (e : String) (wdb : List WidgetDataRow) (ddb : List (DashRow String))
    (run_id : String) :
    cleanup_widget_data (some e) wdb run_id =
      .error ("Failed to execute query: " ++ e) ∧
    cleanup_dashboard_data (some e) ddb run_id = ddb :=
  ⟨rfl, rfl⟩

/-! ## `initialize_dashboard` (dashboard_storage_tools.py, lines 77-130) -/

def isHexLowerDigit (c : Char) : Bool :=
  c.isDigit || decide ('a' ≤ c ∧ c ≤ 'f')

/-- The dashboard_id validation of `initialize_dashboard` (lines 97-107):
`uuid.UUID(dashboard_id, version=4)` parses any 32-hex-digit string (braces,
urn prefix, hyphens anywhere, any case), then forces the version nibble to 4
and the variant bits to 10; the code accepts the id only when additionally
`str(uuid_obj) == dashboard_id`, and `str` of a UUID is the canonical
lowercase hyphenated 8-4-4-4-12 form.  The composite test therefore holds
exactly when the input already IS canonical lowercase 8-4-4-4-12 with
version nibble '4' (index 14) and variant character in 8/9/a/b (index 19);
every other input (including parse failures, which raise ValueError and are
caught) falls to the mint-a-new-id branch. -/
def isCanonicalUuid4 (s : String) : Bool :=
  let cs := s.toList
  cs.length == 36 &&
  ((List.range 36).all (fun i =>
    if i == 8 || i == 13 || i == 18 || i == 23 then cs.getD i ' ' == '-'
    else isHexLowerDigit (cs.getD i ' '))) &&
  cs.getD 14 ' ' == '4' &&
  (cs.getD 19 ' ' == '8' || cs.getD 19 ' ' == '9' ||
   cs.getD 19 ' ' == 'a' || cs.getD 19 ' ' == 'b')

/-- The id actually used: the provided one when it passes strict validation,
else the freshly minted `uuid.uuid4()` (parameter `fresh`). -/
def chosenDashboardId (dashboard_id : Option String) (fresh : String) : String :=
  match dashboard_id with
  | none => fresh
  | some d => if isCanonicalUuid4 d then d else fresh

/-- The message returned by `initialize_dashboard` in each branch. -/
def initMessage (dashboard_id : Option String) (fresh : String) : String :=
  match dashboard_id with
  | none => "Dashboard initialized with new ID: " ++ fresh
  | some d =>
    if isCanonicalUuid4 d then "Dashboard initialized with provided ID: " ++ d
    else "Invalid dashboard_id provided. Initialized with new ID: " ++ fresh

/-- The seeded version-1 dashboard document (lines 109-124). -/
def seedConfig (id name description now : String) : DashboardConfig :=
  { id := id, name := name, description := description, widgets := [],
    layout := { columns := 12, rowHeight := 30, margin := (10, 10) },
    isPublished := false, isTemplate := false,
    createdAt := now, updatedAt := now, version := 1 }

/-- `initialize_dashboard`: choose/validate the id, build the seed document,
persist it as a new version via `save_dashboard_data`, return the message
(the Python function returns only the message; the resulting store is
returned here to observe the persisted state). -/
def initialize_dashboard (fresh : String) (db : List (DashRow DashboardConfig))
    (run_id dashboard_name description : String)
    (dashboard_id : Option String) (now : String) :
    Except String (String × List (DashRow DashboardConfig)) :=
  let did := chosenDashboardId dashboard_id fresh
  match save_dashboard_data false db run_id did
      (seedConfig did dashboard_name description now) "success" now with
  | .ok db2 => .ok (initMessage dashboard_id fresh, db2)
  | .error e => .error ("Failed to initialize dashboard: " ++ e)

/-- C8: whenever `dashboard_id` is absent or not a strictly canonical UUID-v4
string, `initialize_dashboard` mints the fresh id and returns normally (the
substitution shows up only in the returned message), and the seeded
version-1 document has an empty widget list and a 12-column layout
descriptor. -/
theorem initialize_dashboard_invalid_id_mints_fresh
    (fresh run_id nm desc now : String) (db : List (DashRow DashboardConfig))
    (dashboard_id : Option String)
    (h : ∀ s, dashboard_id = some s → isCanonicalUuid4 s = false) :
    initialize_dashboard fresh db run_id nm desc dashboard_id now =
      .ok (initMessage dashboard_id fresh,
        db ++ [mkDashRow run_id fresh (seedConfig fresh nm desc now)
          "success" now (_get_next_version false db fresh)]) ∧
    (seedConfig fresh nm desc now).widgets = [] ∧
    (seedConfig fresh nm desc now).layout.columns = 12 ∧
    (seedConfig fresh nm desc now).version = 1 := by
  have hid : chosenDashboardId dashboard_id fresh = fresh := by
    cases dashboard_id with
    | none => rfl
    | some d =>
      simp only [chosenDashboardId]
      rw [h d rfl]
      simp
  refine ⟨?_, rfl, rfl, rfl⟩
  unfold initialize_dashboard
  rw [hid]
  dsimp only
  rw [save_dashboard_data_ok]

/-- Witness for C8: a concrete malformed id is replaced by the fresh id. -/
theorem initialize_dashboard_invalid_id_witness :
    (∀ s, (some "not-a-uuid" : Option String) = some s →
      isCanonicalUuid4 s = false) ∧
    initialize_dashboard "f57a2c84-93d9-4a35-a26a-b21a03b91f4e" []
        "r1" "Sales" "" (some "not-a-uuid") "t0" =
      .ok (initMessage (some "not-a-uuid") "f57a2c84-93d9-4a35-a26a-b21a03b91f4e",
        [] ++ [mkDashRow "r1" "f57a2c84-93d9-4a35-a26a-b21a03b91f4e"
          (seedConfig "f57a2c84-93d9-4a35-a26a-b21a03b91f4e" "Sales" "" "t0")
          "success" "t0"
          (_get_next_version false ([] : List (DashRow DashboardConfig))
            "f57a2c84-93d9-4a35-a26a-b21a03b91f4e")]) ∧
    (seedConfig "f57a2c84-93d9-4a35-a26a-b21a03b91f4e" "Sales" "" "t0").widgets = [] ∧
    (seedConfig "f57a2c84-93d9-4a35-a26a-b21a03b91f4e" "Sales" "" "t0").layout.columns = 12 ∧
    (seedConfig "f57a2c84-93d9-4a35-a26a-b21a03b91f4e" "Sales" "" "t0").version = 1 :=
  have h : ∀ s, (some "not-a-uuid" : Option String) = some s →
      isCanonicalUuid4 s = false := by
    intro s hs
    cases hs
    decide
  ⟨h, (initialize_dashboard_invalid_id_mints_fresh
      "f57a2c84-93d9-4a35-a26a-b21a03b91f4e" "r1" "Sales" "" "t0" []
      (some "not-a-uuid") h).1,
    rfl, rfl, rfl⟩

/-! ## `add_widget_to_dashboard` (dashboard_storage_tools.py, lines 132-143) -/

/-- Fetch the current dashboard document and the stored widget payload,
append the payload's widget definition verbatim
(`widget_data.get("data").get("widget")`) to `widgets`, bump `updatedAt`,
persist the next version.  The Python function returns the updated document;
the resulting store is returned as well to observe the persisted state. -/
def add_widget_to_dashboard (ddb : List (DashRow DashboardConfig))
    (wdb : List WidgetDataRow) (run_id dashboard_id widget_id now : String) :
    Except String (DashboardConfig × List (DashRow DashboardConfig)) :=
  match get_dashboard_data ddb run_id dashboard_id with
  | .error e => .error ("Failed to add widget to dashboard: " ++ e)
  | .ok cfg =>
    match get_widget_data wdb run_id widget_id with
    | .error e => .error ("Failed to add widget to dashboard: " ++ e)
    | .ok wdata =>
      let cfg2 : DashboardConfig :=
        { cfg with widgets := cfg.widgets ++ [wdata.data.widget],
                   updatedAt := now }
      match save_dashboard_data false ddb run_id dashboard_id cfg2
          "success" now with
      | .error e => .error ("Failed to add widget to dashboard: " ++ e)
      | .ok ddb2 => .ok (cfg2, ddb2)

/-- Concrete store contents for the C9 counterexample: a freshly initialized
dashboard and a stored widget whose payload — as produced by the widget
builders, whose `Widget` model has required `position` and `size` fields —
already carries a position and a size. -/
def c9SeedRow : DashRow DashboardConfig :=
  mkDashRow "r1" "d1" (seedConfig "d1" "Sales" "" "t0") "success" "t0" 1

def c9StoredWidget : Widget :=
  { id := "w1", type := "metric",
    position := some { x := 0, y := 0 },
    size := some { width := 280, height := 160 } }

def c9WidgetRow : WidgetDataRow :=
  { run_id := "r1", widget_id := "w1",
    data := { rtype := "widget", rid := "w1",
              data := { widget := c9StoredWidget } },
    created_at := "t0", status := "success" }

/-- C9 counterexample: the widget added by `add_widget_to_dashboard` was
never passed through `optimize_dashboard_layout`, yet it is NOT invisible to
subsequent overlap checks — its stored payload already carries position and
size, so `occupied_positions` counts it and the next metric placement is
pushed from (0,0) to (300,0). -/
theorem add_widget_visible_to_overlap_counterexample :
    Except.map (fun p => (occupiedPositions p.1.widgets,
        calculate_widget_position p.1.widgets "metric"))
      (add_widget_to_dashboard [c9SeedRow] [c9WidgetRow] "r1" "d1" "w1" "t1") =
    .ok ([{ x := 0, y := 0, width := 280, height := 160 }],
         { x := 300, y := 0 }) := by
  rfl

/-- C9 (amended): `calculate_widget_position` counts an existing widget only
when it carries both a non-empty position and a non-empty size, and
`add_widget_to_dashboard` appends the stored widget definition verbatim,
assigning neither — so a widget whose STORED definition lacks position or
size stays invisible to subsequent overlap checks until
`optimize_dashboard_layout` assigns them; but a widget whose stored
definition already carries position and size (the standard widget payload)
is visible immediately. -/
theorem add_widget_appends_verbatim_unplaced_invisible
    (ddb : List (DashRow DashboardConfig)) (wdb : List WidgetDataRow)
    (run_id dashboard_id widget_id now : String)
    (cfg cfg2 : DashboardConfig) (ddb2 : List (DashRow DashboardConfig))
    (wdata : WidgetResponsePayload)
    (hg : get_dashboard_data ddb run_id dashboard_id = .ok cfg)
    (hw : get_widget_data wdb run_id widget_id = .ok wdata)
    (ha : add_widget_to_dashboard ddb wdb run_id dashboard_id widget_id now =
      .ok (cfg2, ddb2)) :
    cfg2.widgets = cfg.widgets ++ [wdata.data.widget] ∧
    ((wdata.data.widget.position = none ∨ wdata.data.widget.size = none) →
      ∀ t, calculate_widget_position cfg2.widgets t =
        calculate_widget_position cfg.widgets t) := by
  unfold add_widget_to_dashboard at ha
  rw [hg, hw] at ha
  dsimp only at ha
  rw [save_dashboard_data_ok] at ha
  dsimp only at ha
  have hpair := (Except.ok.injEq _ _).mp ha.symm
  have hcfg2 : cfg2 = { cfg with
                        widgets := cfg.widgets ++ [wdata.data.widget],
                        updatedAt := now } :=
    congrArg Prod.fst hpair
  constructor
  · rw [hcfg2]
  · intro hnone t
    rw [hcfg2]
    have hoccs : occupiedPositions (cfg.widgets ++ [wdata.data.widget]) =
        occupiedPositions cfg.widgets := by
      unfold occupiedPositions
      rw [List.filterMap_append]
      rcases hnone with hp | hs
      · simp [hp]
      · rcases hw2 : wdata.data.widget.position with _ | p
        · simp [hw2]
        · simp [hw2, hs]
    unfold calculate_widget_position
    rw [hoccs]

/-- A stored widget payload with neither position nor size, for the amended
C9 witness. -/
def c9bWidget : Widget :=
  { id := "w2", type := "metric", position := none, size := none }

def c9bRow : WidgetDataRow :=
  { run_id := "r1", widget_id := "w2",
    data := { rtype := "widget", rid := "w2", data := { widget := c9bWidget } },
    created_at := "t0", status := "success" }

def c9bConfig2 : DashboardConfig :=
  { seedConfig "d1" "Sales" "" "t0" with
    widgets := (seedConfig "d1" "Sales" "" "t0").widgets ++ [c9bWidget],
    updatedAt := "t1" }

/-- Witness for the amended C9: adding a stored widget with no position
leaves the next placement computation unchanged. -/
theorem add_widget_unplaced_invisible_witness :
    get_dashboard_data [c9SeedRow] "r1" "d1" =
      .ok (seedConfig "d1" "Sales" "" "t0") ∧
    get_widget_data [c9bRow] "r1" "w2" =
      .ok { rtype := "widget", rid := "w2", data := { widget := c9bWidget } } ∧
    c9bConfig2.widgets = (seedConfig "d1" "Sales" "" "t0").widgets ++
      [c9bWidget] ∧
    (∀ t, calculate_widget_position c9bConfig2.widgets t =
      calculate_widget_position (seedConfig "d1" "Sales" "" "t0").widgets t) := by
  have hg : get_dashboard_data [c9SeedRow] "r1" "d1" =
      .ok (seedConfig "d1" "Sales" "" "t0") := by rfl
  have hw : get_widget_data [c9bRow] "r1" "w2" =
      .ok { rtype := "widget", rid := "w2",
            data := { widget := c9bWidget } } := by rfl
  have ha : add_widget_to_dashboard [c9SeedRow] [c9bRow] "r1" "d1" "w2" "t1" =
      .ok (c9bConfig2,
        [c9SeedRow] ++ [mkDashRow "r1" "d1" c9bConfig2 "success" "t1" 2]) := by
    rfl
  have hmain := add_widget_appends_verbatim_unplaced_invisible
    [c9SeedRow] [c9bRow] "r1" "d1" "w2" "t1" (seedConfig "d1" "Sales" "" "t0")
    c9bConfig2 _ _ hg hw ha
  exact ⟨hg, hw, hmain.1, hmain.2 (Or.inl rfl)⟩

/-! ## Analytic table catalog (storage_tools.py, DuckDBManager)

State: the physical tables of the embedded engine (name to contents) and the
`table_metadata` catalog (PRIMARY KEY table_name; columns per
`_init_metadata_table`).  A dataframe is its column list and row list. -/

structure DataFrame where
  columns : List String
  rows : List (List String)
  deriving DecidableEq, Repr

structure MetaRow where
  table_name : String
  original_file : String
  table_type : String
  created_at : String
  description : String
  row_count : Nat
  column_count : Nat
  user_id : String
  deriving DecidableEq, Repr

structure CatalogState where
  tables : List (String × DataFrame)
  metadata : List MetaRow
  deriving DecidableEq, Repr

/-- `DuckDBManager.save_dataframe` (storage_tools.py, lines 212-249):
`DROP TABLE IF EXISTS name`, `CREATE TABLE name AS SELECT * FROM df`, then
`INSERT OR REPLACE INTO table_metadata` — the REPLACE removes any catalog
row with the same primary key `table_name`.  The `user_id` is the caller's
(context extraction for an empty user id happens outside the modelled
state). -/
def save_dataframe (st : CatalogState) (df : DataFrame)
    (table_name description user_id now : String) : CatalogState :=
  { tables := st.tables.filter (fun tp => !(tp.1 == table_name)) ++
      [(table_name, df)],
    metadata := st.metadata.filter (fun m => !(m.table_name == table_name)) ++
      [{ table_name := table_name, original_file := "",
         table_type := "analysis", created_at := now,
         description := description, row_count := df.rows.length,
         column_count := df.columns.length, user_id := user_id }] }

/-- Insertion step of `ORDER BY t.table_name` in `get_table_names`. -/
def insertString (s : String) : List String → List String
  | [] => [s]
  | t :: ts => if s ≤ t then s :: t :: ts else t :: insertString s ts

def sortStrings : List String → List String
  | [] => []
  | s :: ss => insertString s (sortStrings ss)

/-- `DuckDBManager.get_table_names` (storage_tools.py, lines 139-155): join
of the engine's physical tables with `table_metadata` on the name, keeping
names other than 'table_metadata' whose metadata row's `user_id` equals the
requesting user, ordered by name. -/
def get_table_names (st : CatalogState) (user_id : String) : List String :=
  sortStrings (st.tables.flatMap (fun tp =>
    st.metadata.filterMap (fun m =>
      if tp.1 = m.table_name ∧ tp.1 ≠ "table_metadata" ∧ m.user_id = user_id
      then some tp.1 else none)))

/-! ### C4 and C5 -/

theorem filter_meta_roundtrip (nm : String) (l : List MetaRow) :
    (l.filter (fun m => !(m.table_name == nm))).filter
      (fun m => m.table_name == nm) = [] := by
  rw [List.filter_filter]
  apply List.filter_eq_nil_iff.mpr
  intro m hm
  simp

theorem filter_tables_roundtrip (nm : String) (l : List (String × DataFrame)) :
    (l.filter (fun tp => !(tp.1 == nm))).filter (fun tp => tp.1 == nm) = [] := by
  rw [List.filter_filter]
  apply List.filter_eq_nil_iff.mpr
  intro tp htp
  simp

/-- C4: two saves under the same name leave exactly one catalog entry for the
name, and that entry and the physical table reflect only the second row-set
(its row and column counts). -/
theorem save_dataframe_upsert (st : CatalogState) (nm d1 d2 u1 u2 t1 t2 : String)
    (df1 df2 : DataFrame) :
    ((save_dataframe (save_dataframe st df1 nm d1 u1 t1) df2 nm d2 u2 t2).metadata.filter
        (fun m => m.table_name == nm)).length = 1 ∧
    (∀ m ∈ (save_dataframe (save_dataframe st df1 nm d1 u1 t1) df2 nm d2 u2 t2).metadata,
        m.table_name = nm →
        m.row_count = df2.rows.length ∧ m.column_count = df2.columns.length) ∧
    (save_dataframe (save_dataframe st df1 nm d1 u1 t1) df2 nm d2 u2 t2).tables.filter
        (fun tp => tp.1 == nm) = [(nm, df2)] := by
  refine ⟨?_, ?_, ?_⟩
  · simp only [save_dataframe]
    rw [List.filter_append, filter_meta_roundtrip]
    simp
  · intro m hm hname
    simp only [save_dataframe] at hm
    rcases List.mem_append.mp hm with h1 | h1
    · have hne := (List.mem_filter.mp h1).2
      simp [hname] at hne
    · have hm2 := List.mem_singleton.mp h1
      rw [hm2]
      exact ⟨rfl, rfl⟩
  · simp only [save_dataframe]
    rw [List.filter_append, filter_tables_roundtrip]
    simp

theorem mem_insertString (x s : String) :
    ∀ l, x ∈ insertString s l ↔ x = s ∨ x ∈ l := by
  intro l
  induction l with
  | nil => simp [insertString]
  | cons t ts ih =>
    unfold insertString
    by_cases h : s ≤ t
    · rw [if_pos h]
      simp [List.mem_cons]
    · rw [if_neg h]
      simp only [List.mem_cons, ih]
      tauto

theorem mem_sortStrings (x : String) : ∀ l, x ∈ sortStrings l ↔ x ∈ l := by
  intro l
  induction l with
  | nil => simp [sortStrings]
  | cons s ss ih =>
    unfold sortStrings
    rw [mem_insertString]
    simp [ih]

/-- C5: under the `table_metadata` primary key (no duplicate names), every
name `get_table_names` returns for user u1 has its metadata entry owned by
u1 — never by a different user u2. -/
theorem get_table_names_tenant_isolated (st : CatalogState) (u1 u2 : String)
    (hne : u1 ≠ u2)
    (hpk : (st.metadata.map (fun m => m.table_name)).Nodup) :
    ∀ n ∈ get_table_names st u1,
      (∃ m ∈ st.metadata, m.table_name = n ∧ m.user_id = u1) ∧
      (∀ m ∈ st.metadata, m.table_name = n → m.user_id ≠ u2) := by
  intro n hn
  unfold get_table_names at hn
  rw [mem_sortStrings, List.mem_flatMap] at hn
  obtain ⟨tp, htp, hfm⟩ := hn
  rw [List.mem_filterMap] at hfm
  obtain ⟨m, hm, hcond⟩ := hfm
  by_cases hP : tp.1 = m.table_name ∧ tp.1 ≠ "table_metadata" ∧ m.user_id = u1
  · rw [if_pos hP] at hcond
    have hn2 : tp.1 = n := Option.some.inj hcond
    have hmn : m.table_name = n := by rw [← hP.1, hn2]
    refine ⟨⟨m, hm, hmn, hP.2.2⟩, ?_⟩
    intro m2 hm2 hmn2
    have heq : m2 = m := by
      apply List.inj_on_of_nodup_map hpk hm2 hm
      rw [hmn2, hmn]
    rw [heq, hP.2.2]
    exact hne
  · rw [if_neg hP] at hcond
    cases hcond

/-- Witness for C5 at a concrete two-user catalog. -/
theorem get_table_names_tenant_isolated_witness :
    ("alice" ≠ "bob") ∧
    ((([{ table_name := "ta", original_file := "", table_type := "csv",
          created_at := "t0", description := "", row_count := 1,
          column_count := 1, user_id := "alice" },
        { table_name := "tb", original_file := "", table_type := "csv",
          created_at := "t0", description := "", row_count := 1,
          column_count := 1, user_id := "bob" }] : List MetaRow).map
        (fun m => m.table_name)).Nodup) ∧
    (∀ n ∈ get_table_names
        { tables := [("ta", { columns := ["c"], rows := [["v"]] }),
                     ("tb", { columns := ["c"], rows := [["v"]] })],
          metadata := [{ table_name := "ta", original_file := "",
                         table_type := "csv", created_at := "t0",
                         description := "", row_count := 1,
                         column_count := 1, user_id := "alice" },
                       { table_name := "tb", original_file := "",
                         table_type := "csv", created_at := "t0",
                         description := "", row_count := 1,
                         column_count := 1, user_id := "bob" }] } "alice",
      (∃ m ∈ [({ table_name := "ta", original_file := "", table_type := "csv",
                 created_at := "t0", description := "", row_count := 1,
                 column_count := 1, user_id := "alice" } : MetaRow),
               { table_name := "tb", original_file := "", table_type := "csv",
                 created_at := "t0", description := "", row_count := 1,
                 column_count := 1, user_id := "bob" }],
          m.table_name = n ∧ m.user_id = "alice") ∧
      (∀ m ∈ [({ table_name := "ta", original_file := "", table_type := "csv",
                 created_at := "t0", description := "", row_count := 1,
                 column_count := 1, user_id := "alice" } : MetaRow),
               { table_name := "tb", original_file := "", table_type := "csv",
                 created_at := "t0", description := "", row_count := 1,
                 column_count := 1, user_id := "bob" }],
          m.table_name = n → m.user_id ≠ "bob")) :=
  ⟨by decide, by decide,
    get_table_names_tenant_isolated _ "alice" "bob" (by decide) (by decide)⟩
